import Mathlib

set_option maxRecDepth 100000

/-!
Verification of the editorial-workflow authorization layer: shallow
embedding of the five route policies (workflow-status, can-publish,
is-owner-or-editor, role-check, cms-role) and proofs of the
spec claims about them.

JS conventions are made explicit: an absent field is `none`, string
truthiness is "non-empty", number truthiness is "non-zero", `a || b`
is a truthiness fallback, and a thrown denial is `PolicyResult.deny`
carrying the thrown message.  The cms-role policy returns a plain
boolean in the source, so it is embedded as a `Bool`-valued function.
-/

namespace Strapi

/-- A users-permissions role: optional canonical type tag and optional
human-readable name, as accessed via user?.role?.type / .name. -/
structure Role where
  type : Option String
  name : Option String
deriving DecidableEq

/-- The authenticated user in ctx.state.user.  id 0 stands for a falsy
id (the code checks truthiness of user?.id). -/
structure User where
  id : Nat
  role : Option Role
deriving DecidableEq

/-- The article fields the workflow policy reads. -/
structure Article where
  workflowStatus : Option String
deriving DecidableEq

/-- An entity fetched with its createdBy relation populated; only the
creator id is read (entity.createdBy?.id). -/
structure Entity where
  createdById : Option Nat
deriving DecidableEq

/-- Outcome of a throwing policy: return true, or throw an Error with
a message. -/
inductive PolicyResult where
  | allow : PolicyResult
  | deny : String → PolicyResult
deriving DecidableEq

/-- The message carried by a denial, if any. -/
def PolicyResult.message : PolicyResult → Option String
  | .allow => none
  | .deny m => some m

/-- A denial, if produced, carries a non-empty message. -/
def PolicyResult.messageNonempty : PolicyResult → Prop
  | .allow => True
  | .deny m => m ≠ ""

/-- JS string truthiness: present and non-empty. -/
def strTruthy : Option String → Bool
  | none => false
  | some s => s != ""

/-- JS numeric truthiness of an optional id: present and non-zero. -/
def natTruthy : Option Nat → Bool
  | none => false
  | some n => n != 0

/-- JS `a || d` for an optional string a and default d. -/
def jsOrStr (a : Option String) (d : String) : String :=
  match a with
  | none => d
  | some s => if s = "" then d else s

/-- JS `a || b` keeping the optional shape (used for
`body?.data?.workflowStatus || body?.workflowStatus`). -/
def firstTruthyStr (a b : Option String) : Option String :=
  if strTruthy a then a else b

/-- ASCII lowercasing, the effect of JS toLowerCase() on the role
strings involved here (list-based so the kernel can evaluate it). -/
def strLower (s : String) : String :=
  ⟨s.data.map Char.toLower⟩

/-- Strip leading and trailing whitespace, the effect of JS trim(). -/
def strTrim (s : String) : String :=
  ⟨((s.data.dropWhile Char.isWhitespace).reverse.dropWhile Char.isWhitespace).reverse⟩

/-- `(user?.role?.type || '').toLowerCase()` (equivalently the
typeof-guarded form used in the other policies). -/
def roleTypeLower (u : User) : String :=
  strLower ((u.role.bind (fun r => r.type)).getD "")

/-- `(user?.role?.name || '').toLowerCase()`. -/
def roleNameLower (u : User) : String :=
  strLower ((u.role.bind (fun r => r.name)).getD "")

/-! ## workflow-status policy (src/policies/workflow-status.ts) -/

/-- Valid status transitions per role: key role type, then current
status, value the allowed next statuses (VALID_TRANSITIONS). -/
def VALID_TRANSITIONS : List (String × List (String × List String)) :=
  [("reader", []),
   ("reporter", [("draft", ["review"]), ("review", []), ("published", [])]),
   ("reviewer", [("draft", ["review"]), ("review", ["draft"]), ("published", [])]),
   ("editor", [("draft", ["review", "published"]),
               ("review", ["draft", "published"]),
               ("published", ["draft"])])]

/-- `(VALID_TRANSITIONS[role] || {})[current] || []`. -/
def allowedNext (role current : String) : List String :=
  (((VALID_TRANSITIONS.lookup role).getD []).lookup current).getD []

/-- Human-readable descriptions for invalid transitions
(TRANSITION_ERROR_MESSAGES). -/
def TRANSITION_ERROR_MESSAGES : List (String × String) :=
  [("reporter:review", "Reporters cannot modify articles that are in review. Please wait for a Reviewer or Editor to process your submission."),
   ("reporter:published", "Reporters cannot modify published articles. Please contact an Editor if changes are needed."),
   ("reviewer:published", "Reviewers cannot unpublish articles. Only Editors can unpublish content."),
   ("reader:any", "Readers do not have permission to change article status.")]

/-- The enumerated workflow statuses (validStatuses). -/
def validStatuses : List String := ["draft", "review", "published"]

/-- Message thrown when the requested status is outside validStatuses. -/
def invalidStatusMsg (newStatus : String) : String :=
  "Invalid status value: \"" ++ newStatus ++ "\". Valid values are: " ++ String.intercalate ", " validStatuses

/-- The generic invalid-transition message, built when no role-specific
message is configured. -/
def genericTransitionMsg (currentStatus newStatus effectiveRole : String) (allowedNextStatuses : List String) : String :=
  "Invalid status transition: \"" ++ currentStatus ++ "\" → \"" ++ newStatus ++ "\" is not allowed for " ++ effectiveRole ++ " role. " ++
    "Allowed transitions from \"" ++ currentStatus ++ "\": " ++
    (if allowedNextStatuses.length > 0 then String.intercalate ", " allowedNextStatuses else "none")

/-- Creation branch of workflow-status (no resource id in params). -/
def workflowCreate (u : User) (newStatus : String) : PolicyResult :=
  if roleTypeLower u = "reporter" ∧ newStatus ≠ "draft" then
    .deny "Reporters can only create articles in draft status. Submit for review after creation."
  else if roleTypeLower u = "reviewer" then
    .deny "Reviewers cannot create articles. Only Reporters and Editors can create content."
  else if roleTypeLower u = "reader" then
    .deny "Readers cannot create articles."
  else .allow

/-- Transition branch of workflow-status: fetch the article (modelled
by the fetch outcome: none = fetch threw, some none = not found), then
check the transition table. -/
def workflowTransition (u : User) (newStatus : String) (fetched : Option (Option Article)) : PolicyResult :=
  match fetched with
  | none => .deny "Unable to verify article status"
  | some none => .deny "Article not found"
  | some (some article) =>
    let currentStatus := jsOrStr article.workflowStatus "draft"
    if currentStatus = newStatus then .allow
    else
      let effectiveRole := if roleTypeLower u ≠ "" then roleTypeLower u else roleNameLower u
      let allowedNextStatuses := allowedNext effectiveRole currentStatus
      if allowedNextStatuses.contains newStatus then .allow
      else
        match TRANSITION_ERROR_MESSAGES.lookup (effectiveRole ++ ":" ++ currentStatus) with
        | some m => .deny m
        | none =>
          if effectiveRole = "" ∨ effectiveRole = "reader" then
            .deny ((TRANSITION_ERROR_MESSAGES.lookup "reader:any").getD "")
          else
            .deny (genericTransitionMsg currentStatus newStatus effectiveRole allowedNextStatuses)

/-- workflow-status after the api-token and authentication checks:
status extraction, status-value validation, then the creation or
transition branch. -/
def workflowBody (u : User) (bodyDataStatus bodyStatus : Option String) (resourceId : Option Nat) (fetched : Option (Option Article)) : PolicyResult :=
  let newStatusOpt := firstTruthyStr bodyDataStatus bodyStatus
  if strTruthy newStatusOpt then
    let newStatus := newStatusOpt.getD ""
    if validStatuses.contains newStatus then
      if natTruthy resourceId then workflowTransition u newStatus fetched
      else workflowCreate u newStatus
    else .deny (invalidStatusMsg newStatus)
  else .allow

/-- The workflow-status policy.  authStrategy is
state?.auth?.strategy?.name. -/
def workflowStatusPolicy (authStrategy : Option String) (user : Option User)
    (bodyDataStatus bodyStatus : Option String) (resourceId : Option Nat)
    (fetched : Option (Option Article)) : PolicyResult :=
  if authStrategy = some "api-token" then .allow
  else match user with
  | none => .deny "You must be logged in to change article status"
  | some u =>
    if u.id = 0 then .deny "You must be logged in to change article status"
    else workflowBody u bodyDataStatus bodyStatus resourceId fetched

/-! ## can-publish policy (src/policies/can-publish.ts) -/

/-- The can-publish policy: only a user whose role type or role name
is editor (case-insensitively) may publish. -/
def canPublishPolicy (authStrategy : Option String) (user : Option User) : PolicyResult :=
  if authStrategy = some "api-token" then .allow
  else match user with
  | none => .deny "You must be logged in to publish content"
  | some u =>
    if u.id = 0 then .deny "You must be logged in to publish content"
    else if roleTypeLower u = "editor" ∨ roleNameLower u = "editor" then .allow
    else .deny "You do not have permission to publish content. Only Editors can publish or unpublish articles."

/-! ## is-owner-or-editor policy (src/policies/is-owner-or-editor.ts) -/

/-- The is-owner-or-editor policy.  fetched models the findOne call:
none = the call threw (surfaced as the generic catch-all message),
some none = entity null, some (some e) = entity found. -/
def isOwnerOrEditorPolicy (authStrategy : Option String) (user : Option User)
    (resourceId : Option Nat) (fetched : Option (Option Entity)) : PolicyResult :=
  if authStrategy = some "api-token" then .allow
  else match user with
  | none => .deny "You must be logged in to access this resource"
  | some u =>
    if u.id = 0 then .deny "You must be logged in to access this resource"
    else if roleTypeLower u = "editor" ∨ roleNameLower u = "editor" then .allow
    else if natTruthy resourceId then
      match fetched with
      | none => .deny "An error occurred while verifying access permissions"
      | some none => .deny "Resource not found"
      | some (some entity) =>
        if natTruthy entity.createdById then
          if entity.createdById.getD 0 = u.id then .allow
          else .deny "You do not have permission to modify this resource. Only the content owner or an Editor can perform this action."
        else .deny "Unable to verify ownership - resource has no creator"
    else .deny "Resource ID is required"

/-! ## role-check policy (src/policies/role-check.ts) -/

/-- The Forbidden message of role-check, naming the role of the user and
the configured required roles. -/
def roleCheckForbiddenMsg (userRole : String) (allowedRoles : List String) : String :=
  "Access denied. Your role \"" ++ userRole ++ "\" does not have permission for this action. " ++
    "Required roles: " ++ String.intercalate ", " allowedRoles

/-- role-check after the api-token and authentication checks:
config validation, no-role guard, then normalized membership test. -/
def roleCheckBody (u : User) (allowedRoles : List String) : PolicyResult :=
  if allowedRoles.isEmpty then .deny "Access denied - policy configuration error"
  else if roleTypeLower u = "" ∧ roleNameLower u = "" then
    .deny "Access denied - no role assigned to your account"
  else
    let normalizedAllowed := allowedRoles.map (fun r => strTrim (strLower r))
    if normalizedAllowed.contains (roleTypeLower u) ∨ normalizedAllowed.contains (roleNameLower u) then .allow
    else
      .deny (roleCheckForbiddenMsg (if roleTypeLower u ≠ "" then roleTypeLower u else roleNameLower u) allowedRoles)

/-- The role-check policy: configurable allowed-roles gate, matching
either the normalized role type or the normalized role name. -/
def roleCheckPolicy (authStrategy : Option String) (user : Option User)
    (allowedRoles : List String) : PolicyResult :=
  if authStrategy = some "api-token" then .allow
  else match user with
  | none => .deny "You must be logged in to access this resource"
  | some u =>
    if u.id = 0 then .deny "You must be logged in to access this resource"
    else roleCheckBody u allowedRoles

/-! ## cms-role policy (src/policies/cms-role.ts) -/

/-- The allowed CMS roles. -/
def cmsAllowedRoles : List String := ["admin", "editor", "reviewer", "reporter", "author", "contributor"]

/-- The single normalized role string cms-role resolves:
`(type || name || '').trim().toLowerCase()` — the type field is
preferred whenever it is a truthy string, the name is only a fallback. -/
def cmsNormalizedRole (u : User) : String :=
  strLower (strTrim (jsOrStr (u.role.bind (fun r => r.type)) (jsOrStr (u.role.bind (fun r => r.name)) "")))

/-- The cms-role policy.  It returns a plain boolean: a denial is the
bare value false, with no thrown message. -/
def cmsRolePolicy (authStrategy : Option String) (user : Option User) : Bool :=
  if authStrategy = some "api-token" then true
  else match user with
  | none => false
  | some u =>
    if cmsNormalizedRole u = "" then false
    else cmsAllowedRoles.contains (cmsNormalizedRole u)

/-! ## Helpers for reasoning about messages -/

/-- pat occurs as a contiguous substring of s. -/
def strContains (s pat : String) : Prop :=
  pat.toList <:+: s.toList

instance strContainsDecidable (s pat : String) : Decidable (strContains s pat) :=
  inferInstanceAs (Decidable (pat.toList <:+: s.toList))

lemma strContains_append_right (a b : String) : strContains (a ++ b) b :=
  ⟨a.toList, [], by simp [String.toList, String.data_append]⟩

lemma append_ne_empty (s t : String) (h : s ≠ "") : s ++ t ≠ "" := by
  intro hc
  apply h
  have hd := congrArg String.data hc
  rw [String.data_append] at hd
  have h2 := List.append_eq_nil.mp hd
  cases s
  simp_all

/-! ## Claim theorems -/

/-- Harness for single-transition requests: an authenticated user with
the given role type, a request carrying the requested status, against
an existing article in the given current status. -/
def runTransitionC1 (role current requested : String) : PolicyResult :=
  workflowStatusPolicy none (some ⟨1, some ⟨some role, none⟩⟩) (some requested) none (some 5)
    (some (some ⟨some current⟩))

/-- C1: counterexample to the message half of the claim.  A reporter
requesting review → draft is denied through the canned
reporter:review message, which does not mention the requested state
draft (nor the allowed set). -/
theorem C1_counterexample :
    runTransitionC1 "reporter" "review" "draft"
      = .deny "Reporters cannot modify articles that are in review. Please wait for a Reviewer or Editor to process your submission."
    ∧ ¬ strContains "Reporters cannot modify articles that are in review. Please wait for a Reviewer or Editor to process your submission." "draft" := by
  decide

/-- C1 (amended): for the four roles and any distinct current/requested
status pair, the check allows iff the requested status is in the
transition table entry for (role, current); a denial message names the
current state, requested state and allowed set only when no canned
role-specific message applies and the role is not reader. -/
theorem C1_transitions :
    ∀ r ∈ ["reader", "reporter", "reviewer", "editor"],
    ∀ s ∈ validStatuses, ∀ t ∈ validStatuses, t ≠ s →
    (runTransitionC1 r s t = .allow ↔ t ∈ allowedNext r s)
    ∧ (r ≠ "reader" → TRANSITION_ERROR_MESSAGES.lookup (r ++ ":" ++ s) = none →
        ((runTransitionC1 r s t).message.all (fun m =>
          decide (strContains m s) && decide (strContains m t) &&
          (if allowedNext r s = [] then decide (strContains m "none")
           else (allowedNext r s).all (fun a => decide (strContains m a))))) = true) := by
  decide

/-- C1 witness: the reporter draft → review transition is in the table
and is allowed. -/
theorem C1_transitions_witness : runTransitionC1 "reporter" "draft" "review" = .allow :=
  ((C1_transitions "reporter" (by decide) "draft" (by decide) "review" (by decide) (by decide)).1).mpr
    (by decide)

/-- C2: counterexample.  An authenticated principal with role admin
(type and name) who does not own the resource is denied by
is-owner-or-editor, contradicting the claimed admin override. -/
theorem C2_counterexample :
    isOwnerOrEditorPolicy none (some ⟨1, some ⟨some "admin", some "Admin"⟩⟩) (some 5)
        (some (some ⟨some 2⟩))
      = .deny "You do not have permission to modify this resource. Only the content owner or an Editor can perform this action." := by
  decide

/-- C2 (amended): a principal whose role type or role name is editor
passes regardless of the creator; every other authenticated principal
(including role admin) passes iff their id equals the creator id of
the resource. -/
theorem C2_owner_or_editor :
    ∀ (auth : Option String) (u : User) (rid : Option Nat) (e : Entity),
    auth ≠ some "api-token" → u.id ≠ 0 →
    ((roleTypeLower u = "editor" ∨ roleNameLower u = "editor") →
      ∀ f, isOwnerOrEditorPolicy auth (some u) rid f = .allow)
    ∧ (¬ (roleTypeLower u = "editor" ∨ roleNameLower u = "editor") →
        natTruthy rid = true → natTruthy e.createdById = true →
        (isOwnerOrEditorPolicy auth (some u) rid (some (some e)) = .allow
          ↔ e.createdById = some u.id)) := by
  intro auth u rid e ha hid
  constructor
  · intro hed f
    simp [isOwnerOrEditorPolicy, ha, hid, hed]
  · intro hed hrid hcr
    rcases e with ⟨cid⟩
    rcases cid with _ | c
    · simp [natTruthy] at hcr
    · rcases rid with _ | n
      · simp [natTruthy] at hrid
      · simp only [natTruthy, bne_iff_ne, ne_eq] at hrid hcr
        by_cases ho : c = u.id
        · simp [isOwnerOrEditorPolicy, ha, hid, hed, natTruthy, hrid, hcr, ho]
        · simp [isOwnerOrEditorPolicy, ha, hid, hed, natTruthy, hrid, hcr, ho]

/-- C2 witness: an editor who is not the creator is allowed; a
reporter who is the creator is allowed. -/
theorem C2_owner_or_editor_witness :
    isOwnerOrEditorPolicy none (some ⟨1, some ⟨some "editor", none⟩⟩) (some 5)
        (some (some ⟨some 2⟩)) = .allow
    ∧ isOwnerOrEditorPolicy none (some ⟨1, some ⟨some "reporter", none⟩⟩) (some 5)
        (some (some ⟨some 1⟩)) = .allow :=
  ⟨(C2_owner_or_editor none ⟨1, some ⟨some "editor", none⟩⟩ (some 5) ⟨some 2⟩
      (by decide) (by decide)).1 (by decide) _,
   ((C2_owner_or_editor none ⟨1, some ⟨some "reporter", none⟩⟩ (some 5) ⟨some 1⟩
      (by decide) (by decide)).2 (by decide) (by decide) (by decide)).mpr (by decide)⟩

/-- C3: counterexample.  An authenticated principal with role admin is
denied by can-publish, contradicting the claimed editor-or-admin
allow set. -/
theorem C3_counterexample :
    canPublishPolicy none (some ⟨7, some ⟨some "admin", some "Admin"⟩⟩)
      = .deny "You do not have permission to publish content. Only Editors can publish or unpublish articles." := by
  decide

/-- C3 (amended): the publish gate allows exactly the authenticated
principals whose role type or role name is editor; its decision takes
no article as input, so it is independent of workflowStatus. -/
theorem C3_publish_gate :
    ∀ (auth : Option String) (u : User),
    auth ≠ some "api-token" → u.id ≠ 0 →
    (canPublishPolicy auth (some u) = .allow
      ↔ (roleTypeLower u = "editor" ∨ roleNameLower u = "editor")) := by
  intro auth u ha hid
  by_cases hed : roleTypeLower u = "editor" ∨ roleNameLower u = "editor"
  · simp [canPublishPolicy, ha, hid, hed]
  · simp [canPublishPolicy, ha, hid, hed]

/-- C3 witness: an editor may publish. -/
theorem C3_publish_gate_witness :
    canPublishPolicy none (some ⟨7, some ⟨some "editor", none⟩⟩) = .allow :=
  (C3_publish_gate none ⟨7, some ⟨some "editor", none⟩⟩ (by decide) (by decide)).mpr
    (by decide)

/-- C4: a trusted service credential (auth strategy api-token) makes
every individual policy check allow unconditionally, whatever the
principal, resource owner or requested transition. -/
theorem C4_api_token_bypass :
    ∀ (user : Option User) (bds bs : Option String) (rid : Option Nat)
      (fa : Option (Option Article)) (fe : Option (Option Entity)) (roles : List String),
    workflowStatusPolicy (some "api-token") user bds bs rid fa = .allow
    ∧ canPublishPolicy (some "api-token") user = .allow
    ∧ isOwnerOrEditorPolicy (some "api-token") user rid fe = .allow
    ∧ roleCheckPolicy (some "api-token") user roles = .allow
    ∧ cmsRolePolicy (some "api-token") user = true := by
  intro user bds bs rid fa fe roles
  refine ⟨?_, ?_, ?_, ?_, ?_⟩ <;>
    simp [workflowStatusPolicy, canPublishPolicy, isOwnerOrEditorPolicy, roleCheckPolicy,
      cmsRolePolicy]

lemma workflowStatusPolicy_some (auth : Option String) (u : User) (bds bs : Option String)
    (rid : Option Nat) (f : Option (Option Article))
    (ha : auth ≠ some "api-token") (hid : u.id ≠ 0) :
    workflowStatusPolicy auth (some u) bds bs rid f = workflowBody u bds bs rid f := by
  simp [workflowStatusPolicy, ha, hid]

lemma workflow_no_status (u : User) (bds bs : Option String) (rid : Option Nat)
    (f : Option (Option Article)) (h : strTruthy (firstTruthyStr bds bs) = false) :
    workflowBody u bds bs rid f = .allow := by
  simp [workflowBody, h]

lemma workflowBody_create (u : User) (bds bs : Option String) (f : Option (Option Article))
    (s : String) (hf : firstTruthyStr bds bs = some s)
    (hs : validStatuses.contains s = true) (hne : s ≠ "") :
    workflowBody u bds bs none f = workflowCreate u s := by
  have hmem : s ∈ validStatuses := by simpa using hs
  unfold workflowBody
  rw [hf]
  simp [strTruthy, hne, hmem, natTruthy]

lemma workflowCreate_allow (u : User) (s : String) :
    workflowCreate u s = .allow ↔
      (roleTypeLower u ≠ "reviewer" ∧ roleTypeLower u ≠ "reader" ∧
        (roleTypeLower u = "reporter" → s = "draft")) := by
  unfold workflowCreate
  by_cases h1 : roleTypeLower u = "reporter"
  · by_cases hd : s = "draft"
    · simp [h1, hd]
    · simp [h1, hd]
  · by_cases h2 : roleTypeLower u = "reviewer"
    · simp [h1, h2]
    · by_cases h3 : roleTypeLower u = "reader"
      · simp [h1, h2, h3]
      · simp [h1, h2, h3]

/-- C5: on a creation request (no resource id) carrying a valid
requested status, the initial-status rule holds: a reporter is allowed
iff the status is draft, reviewer and reader are always denied, and
every other role type is allowed at any status. -/
theorem C5_initial_status :
    ∀ (auth : Option String) (u : User) (bds bs : Option String)
      (f : Option (Option Article)) (s : String),
    auth ≠ some "api-token" → u.id ≠ 0 →
    firstTruthyStr bds bs = some s → validStatuses.contains s = true →
    (workflowStatusPolicy auth (some u) bds bs none f = .allow ↔
      (roleTypeLower u ≠ "reviewer" ∧ roleTypeLower u ≠ "reader" ∧
        (roleTypeLower u = "reporter" → s = "draft"))) := by
  intro auth u bds bs f s ha hid hf hs
  have hne : s ≠ "" := by
    rintro rfl
    exact absurd hs (by decide)
  rw [workflowStatusPolicy_some auth u bds bs none f ha hid,
    workflowBody_create u bds bs f s hf hs hne]
  exact workflowCreate_allow u s

/-- C5 witness: a reporter creating in draft is allowed. -/
theorem C5_initial_status_witness :
    workflowStatusPolicy none (some ⟨1, some ⟨some "reporter", none⟩⟩) (some "draft") none none
      none = .allow :=
  (C5_initial_status none ⟨1, some ⟨some "reporter", none⟩⟩ (some "draft") none none "draft"
    (by decide) (by decide) (by decide) (by decide)).mpr (by decide)

/-- C6: a request that carries no target status, or whose target
status equals the current status of the article, always passes the
workflow-status check, for every role. -/
theorem C6_noop_transitions :
    ∀ (auth : Option String) (u : User) (bds bs : Option String) (rid : Option Nat)
      (f : Option (Option Article)) (s : String),
    auth ≠ some "api-token" → u.id ≠ 0 →
    ((strTruthy (firstTruthyStr bds bs) = false →
        workflowStatusPolicy auth (some u) bds bs rid f = .allow)
     ∧ (firstTruthyStr bds bs = some s → validStatuses.contains s = true →
        natTruthy rid = true →
        workflowStatusPolicy auth (some u) bds bs rid (some (some ⟨some s⟩)) = .allow)) := by
  intro auth u bds bs rid f s ha hid
  constructor
  · intro h
    rw [workflowStatusPolicy_some auth u bds bs rid f ha hid, workflow_no_status u bds bs rid f h]
  · intro hf hs hrid
    have hne : s ≠ "" := by
      rintro rfl
      exact absurd hs (by decide)
    have hmem : s ∈ validStatuses := by simpa using hs
    rw [workflowStatusPolicy_some auth u bds bs rid _ ha hid]
    unfold workflowBody
    rw [hf]
    simp [strTruthy, hne, hmem, hrid, workflowTransition, jsOrStr]

/-- C6 witness: a reader re-submitting the current status published is
allowed, as is a reader request with no status at all. -/
theorem C6_noop_transitions_witness :
    workflowStatusPolicy none (some ⟨1, some ⟨some "reader", none⟩⟩) (some "published") none
      (some 5) (some (some ⟨some "published"⟩)) = .allow
    ∧ workflowStatusPolicy none (some ⟨1, some ⟨some "reader", none⟩⟩) none none (some 5)
      (some (some ⟨some "published"⟩)) = .allow :=
  ⟨(C6_noop_transitions none ⟨1, some ⟨some "reader", none⟩⟩ (some "published") none (some 5)
      (some (some ⟨some "published"⟩)) "published" (by decide) (by decide)).2
      (by decide) (by decide) (by decide),
   (C6_noop_transitions none ⟨1, some ⟨some "reader", none⟩⟩ none none (some 5)
      (some (some ⟨some "published"⟩)) "published" (by decide) (by decide)).1 (by decide)⟩

/-- C10: a falsy workflowStatus in the body (in particular the empty
string) is treated as no status change: the check allows without
status-value validation or transition lookup, even though the empty
string is outside the enumerated statuses. -/
theorem C10_falsy_status :
    ∀ (auth : Option String) (u : User) (bds bs : Option String) (rid : Option Nat)
      (f : Option (Option Article)),
    auth ≠ some "api-token" → u.id ≠ 0 →
    strTruthy (firstTruthyStr bds bs) = false →
    workflowStatusPolicy auth (some u) bds bs rid f = .allow
    ∧ validStatuses.contains "" = false := by
  intro auth u bds bs rid f ha hid h
  refine ⟨?_, by decide⟩
  rw [workflowStatusPolicy_some auth u bds bs rid f ha hid, workflow_no_status u bds bs rid f h]

/-- C10 witness: a reporter sending workflowStatus as the empty string
against a published article is allowed. -/
theorem C10_falsy_status_witness :
    workflowStatusPolicy none (some ⟨1, some ⟨some "reporter", none⟩⟩) (some "") none (some 5)
      (some (some ⟨some "published"⟩)) = .allow
    ∧ validStatuses.contains "" = false :=
  C10_falsy_status none ⟨1, some ⟨some "reporter", none⟩⟩ (some "") none (some 5)
    (some (some ⟨some "published"⟩)) (by decide) (by decide) (by decide)

lemma roleCheckPolicy_some (auth : Option String) (u : User) (roles : List String)
    (ha : auth ≠ some "api-token") (hid : u.id ≠ 0) :
    roleCheckPolicy auth (some u) roles = roleCheckBody u roles := by
  simp [roleCheckPolicy, ha, hid]

lemma roleCheckBody_main (u : User) (roles : List String) (hr : roles ≠ [])
    (hnr : ¬ (roleTypeLower u = "" ∧ roleNameLower u = "")) :
    roleCheckBody u roles =
      (if (roles.map (fun r => strTrim (strLower r))).contains (roleTypeLower u) = true
          ∨ (roles.map (fun r => strTrim (strLower r))).contains (roleNameLower u) = true
       then .allow
       else .deny (roleCheckForbiddenMsg
          (if roleTypeLower u ≠ "" then roleTypeLower u else roleNameLower u) roles)) := by
  have he : ¬ (roles.isEmpty = true) := by simpa [List.isEmpty_iff] using hr
  unfold roleCheckBody
  rw [if_neg he, if_neg hnr]

lemma cmsRolePolicy_some (auth : Option String) (u : User) (ha : auth ≠ some "api-token") :
    cmsRolePolicy auth (some u)
      = if cmsNormalizedRole u = "" then false
        else cmsAllowedRoles.contains (cmsNormalizedRole u) := by
  simp [cmsRolePolicy, ha]

/-- C7: counterexample.  An authenticated principal with no role at
all and a non-empty allowed list is denied, but the denial does not
name the required roles (here editor), contradicting the claimed
biconditional. -/
theorem C7_counterexample :
    roleCheckPolicy none (some ⟨1, none⟩) ["editor"]
      = .deny "Access denied - no role assigned to your account"
    ∧ ¬ strContains "Access denied - no role assigned to your account" "editor" := by
  decide

/-- C7 (amended): role-check fails Unauthenticated without a principal
id, Misconfigured on an empty allowed list, a no-role denial (not
naming required roles) when both role fields are empty, and otherwise
a Forbidden denial naming the required roles exactly when neither
normalized role field is in the normalized allowed set. -/
theorem C7_role_gate :
    ∀ (auth : Option String) (u : User) (roles : List String),
    auth ≠ some "api-token" →
    (roleCheckPolicy auth none roles = .deny "You must be logged in to access this resource")
    ∧ (u.id = 0 →
        roleCheckPolicy auth (some u) roles = .deny "You must be logged in to access this resource")
    ∧ (u.id ≠ 0 → roles = [] →
        roleCheckPolicy auth (some u) roles = .deny "Access denied - policy configuration error")
    ∧ (u.id ≠ 0 → roles ≠ [] → roleTypeLower u = "" → roleNameLower u = "" →
        roleCheckPolicy auth (some u) roles = .deny "Access denied - no role assigned to your account")
    ∧ (u.id ≠ 0 → roles ≠ [] → ¬ (roleTypeLower u = "" ∧ roleNameLower u = "") →
        ((roleCheckPolicy auth (some u) roles = .allow
           ↔ ((roles.map (fun r => strTrim (strLower r))).contains (roleTypeLower u) = true
              ∨ (roles.map (fun r => strTrim (strLower r))).contains (roleNameLower u) = true))
         ∧ (¬ ((roles.map (fun r => strTrim (strLower r))).contains (roleTypeLower u) = true
              ∨ (roles.map (fun r => strTrim (strLower r))).contains (roleNameLower u) = true) →
            roleCheckPolicy auth (some u) roles
              = .deny (roleCheckForbiddenMsg
                  (if roleTypeLower u ≠ "" then roleTypeLower u else roleNameLower u) roles)
            ∧ strContains
                (roleCheckForbiddenMsg
                  (if roleTypeLower u ≠ "" then roleTypeLower u else roleNameLower u) roles)
                (String.intercalate ", " roles)))) := by
  intro auth u roles ha
  refine ⟨?_, ?_, ?_, ?_, ?_⟩
  · simp [roleCheckPolicy, ha]
  · intro h0
    simp [roleCheckPolicy, ha, h0]
  · intro hid hr
    subst hr
    rw [roleCheckPolicy_some auth u [] ha hid]
    rfl
  · intro hid hr ht hn
    have he : ¬ (roles.isEmpty = true) := by simpa [List.isEmpty_iff] using hr
    rw [roleCheckPolicy_some auth u roles ha hid]
    unfold roleCheckBody
    rw [if_neg he, if_pos ⟨ht, hn⟩]
  · intro hid hr hnr
    rw [roleCheckPolicy_some auth u roles ha hid, roleCheckBody_main u roles hr hnr]
    by_cases hm : ((roles.map (fun r => strTrim (strLower r))).contains (roleTypeLower u) = true
        ∨ (roles.map (fun r => strTrim (strLower r))).contains (roleNameLower u) = true)
    · rw [if_pos hm]
      exact ⟨iff_of_true rfl hm, fun hc => absurd hm hc⟩
    · rw [if_neg hm]
      refine ⟨iff_of_false (by simp) hm, fun _ => ⟨rfl, ?_⟩⟩
      unfold roleCheckForbiddenMsg
      exact strContains_append_right _ _

/-- C7 witness: a principal whose role type is Reviewer (normalizing
to reviewer) is allowed against allowed roles editor, reviewer. -/
theorem C7_role_gate_witness :
    roleCheckPolicy none (some ⟨1, some ⟨some "Reviewer", none⟩⟩) ["editor", "reviewer"]
      = .allow :=
  ((C7_role_gate none ⟨1, some ⟨some "Reviewer", none⟩⟩ ["editor", "reviewer"]
      (by decide)).2.2.2.2 (by decide) (by decide) (by decide)).1.mpr (by decide)

/-- C8: counterexample.  The cms-role gate denies a principal whose
role type is authenticated even though the role name Editor matches
the allowed role editor case-insensitively. -/
theorem C8_counterexample :
    cmsRolePolicy none (some ⟨1, some ⟨some "authenticated", some "Editor"⟩⟩) = false
    ∧ roleNameLower ⟨1, some ⟨some "authenticated", some "Editor"⟩⟩ = "editor"
    ∧ cmsAllowedRoles.contains "editor" = true := by
  decide

/-- C8 (amended): the role-check policy does treat a match on either
role field as sufficient; the cms-role gate instead resolves a single
role string that is the type field whenever that field is a truthy
string (the name is only a fallback), and decides by membership of
that single normalized string. -/
theorem C8_dual_field :
    ∀ (auth : Option String) (u : User) (roles : List String),
    auth ≠ some "api-token" → u.id ≠ 0 → roles ≠ [] →
    ¬ (roleTypeLower u = "" ∧ roleNameLower u = "") →
    ((((roles.map (fun r => strTrim (strLower r))).contains (roleTypeLower u) = true
        ∨ (roles.map (fun r => strTrim (strLower r))).contains (roleNameLower u) = true) →
       roleCheckPolicy auth (some u) roles = .allow)
     ∧ (strTruthy (u.role.bind (fun r => r.type)) = true →
         cmsNormalizedRole u = strLower (strTrim ((u.role.bind (fun r => r.type)).getD ""))
         ∧ (cmsRolePolicy auth (some u) = true
             ↔ cmsAllowedRoles.contains (cmsNormalizedRole u) = true))) := by
  intro auth u roles ha hid hr hnr
  constructor
  · intro hm
    rw [roleCheckPolicy_some auth u roles ha hid, roleCheckBody_main u roles hr hnr, if_pos hm]
  · intro htr
    rcases hty : u.role.bind (fun r => r.type) with _ | t
    · rw [hty] at htr
      simp [strTruthy] at htr
    · rw [hty] at htr
      simp only [strTruthy, bne_iff_ne, ne_eq] at htr
      have hnorm : cmsNormalizedRole u = strLower (strTrim t) := by
        unfold cmsNormalizedRole
        rw [hty]
        simp [jsOrStr, htr]
      refine ⟨by rw [hnorm]; rfl, ?_⟩
      rw [cmsRolePolicy_some auth u ha, hnorm]
      by_cases hz : strLower (strTrim t) = ""
      · rw [if_pos hz, hz]
        decide
      · rw [if_neg hz]

/-- C8 witness: role-check allows when only the name field matches;
cms-role with truthy type authenticated resolves to authenticated,
which is not an allowed CMS role. -/
theorem C8_dual_field_witness :
    roleCheckPolicy none (some ⟨1, some ⟨some "authenticated", some "Editor"⟩⟩)
      ["editor", "admin"] = .allow
    ∧ cmsRolePolicy none (some ⟨1, some ⟨some "authenticated", some "Editor"⟩⟩) = false :=
  ⟨(C8_dual_field none ⟨1, some ⟨some "authenticated", some "Editor"⟩⟩ ["editor", "admin"]
      (by decide) (by decide) (by decide) (by decide)).1 (by decide),
   by decide⟩

lemma invalidStatusMsg_ne (s : String) : invalidStatusMsg s ≠ "" := by
  unfold invalidStatusMsg
  repeat apply append_ne_empty
  decide

lemma genericTransitionMsg_ne (c n e : String) (l : List String) :
    genericTransitionMsg c n e l ≠ "" := by
  unfold genericTransitionMsg
  repeat apply append_ne_empty
  decide

lemma roleCheckForbiddenMsg_ne (r : String) (l : List String) :
    roleCheckForbiddenMsg r l ≠ "" := by
  unfold roleCheckForbiddenMsg
  repeat apply append_ne_empty
  decide

lemma lookup_TEM_ne (k m : String) (h : TRANSITION_ERROR_MESSAGES.lookup k = some m) :
    m ≠ "" := by
  simp only [TRANSITION_ERROR_MESSAGES, List.lookup] at h
  repeat' split at h
  all_goals first
    | (simp only [Option.some.injEq] at h
       subst h
       decide)
    | simp at h

lemma workflowCreate_msg (u : User) (s : String) : (workflowCreate u s).messageNonempty := by
  unfold workflowCreate
  repeat' split
  all_goals simp only [PolicyResult.messageNonempty]
  all_goals first | trivial | decide

lemma workflowTransition_msg (u : User) (s : String) (f : Option (Option Article)) :
    (workflowTransition u s f).messageNonempty := by
  rcases f with _ | (_ | a)
  · simp only [workflowTransition, PolicyResult.messageNonempty]
    decide
  · simp only [workflowTransition, PolicyResult.messageNonempty]
    decide
  · simp only [workflowTransition]
    repeat' split
    all_goals simp only [PolicyResult.messageNonempty]
    all_goals first
      | trivial
      | decide
      | (rename_i m hm
         exact lookup_TEM_ne _ _ hm)
      | exact genericTransitionMsg_ne _ _ _ _

lemma workflowBody_msg (u : User) (bds bs : Option String) (rid : Option Nat)
    (f : Option (Option Article)) : (workflowBody u bds bs rid f).messageNonempty := by
  simp only [workflowBody]
  split
  · split
    · split
      · exact workflowTransition_msg _ _ _
      · exact workflowCreate_msg _ _
    · simp only [PolicyResult.messageNonempty]
      exact invalidStatusMsg_ne _
  · trivial

lemma workflowStatusPolicy_msg (auth : Option String) (user : Option User)
    (bds bs : Option String) (rid : Option Nat) (f : Option (Option Article)) :
    (workflowStatusPolicy auth user bds bs rid f).messageNonempty := by
  unfold workflowStatusPolicy
  split
  · trivial
  · split
    · simp only [PolicyResult.messageNonempty]
      decide
    · split
      · simp only [PolicyResult.messageNonempty]
        decide
      · exact workflowBody_msg _ _ _ _ _

lemma canPublishPolicy_msg (auth : Option String) (user : Option User) :
    (canPublishPolicy auth user).messageNonempty := by
  unfold canPublishPolicy
  repeat' split
  all_goals simp only [PolicyResult.messageNonempty]
  all_goals first | trivial | decide

lemma isOwnerOrEditorPolicy_msg (auth : Option String) (user : Option User)
    (rid : Option Nat) (f : Option (Option Entity)) :
    (isOwnerOrEditorPolicy auth user rid f).messageNonempty := by
  unfold isOwnerOrEditorPolicy
  repeat' split
  all_goals simp only [PolicyResult.messageNonempty]
  all_goals first | trivial | decide

lemma roleCheckPolicy_msg (auth : Option String) (user : Option User) (roles : List String) :
    (roleCheckPolicy auth user roles).messageNonempty := by
  simp only [roleCheckPolicy, roleCheckBody]
  repeat' split
  all_goals simp only [PolicyResult.messageNonempty]
  all_goals first
    | trivial
    | decide
    | exact roleCheckForbiddenMsg_ne _ _

/-- C9: counterexample.  The cms-role gate denies (returns the bare
boolean false) for an authenticated user with the default role type
authenticated; the denial carries no reason and no message, so not
every denial comes with a role/ownership/workflow-specific
explanation. -/
theorem C9_counterexample :
    cmsRolePolicy none (some ⟨3, some ⟨some "authenticated", none⟩⟩) = false := by
  decide

/-- C9 (amended): every denial of the throwing policies
(workflow-status, can-publish, is-owner-or-editor, role-check) carries
a non-empty human-readable message, but the cms-role gate denies by
returning the bare boolean false, with no explanation at all. -/
theorem C9_denial_messages :
    ∀ (auth : Option String) (user : Option User) (bds bs : Option String) (rid : Option Nat)
      (fa : Option (Option Article)) (fe : Option (Option Entity)) (roles : List String),
    (workflowStatusPolicy auth user bds bs rid fa).messageNonempty
    ∧ (canPublishPolicy auth user).messageNonempty
    ∧ (isOwnerOrEditorPolicy auth user rid fe).messageNonempty
    ∧ (roleCheckPolicy auth user roles).messageNonempty
    ∧ cmsRolePolicy none (some ⟨4, some ⟨some "public", none⟩⟩) = false :=
  fun auth user bds bs rid fa fe roles =>
    ⟨workflowStatusPolicy_msg auth user bds bs rid fa,
     canPublishPolicy_msg auth user,
     isOwnerOrEditorPolicy_msg auth user rid fe,
     roleCheckPolicy_msg auth user roles,
     by decide⟩

end Strapi
